import Mathlib

/-
Verification of the Punjab Bus Assistant API (bus_api.py).

The program is a FastAPI service that turns natural-language questions
into SQL via a generative-language model, executes the SQL on a MySQL
connection, formats the result through a second model call, keeps a
global 5-turn conversation window, and logs each turn to a chatlogs
table.

Shallow embedding choices:
- Python strings are Lean `String`s; `str.strip(chars)` treats its
  argument as a SET of characters stripped from both ends, modelled by
  `pyStrip`.
- The external collaborators (the generative model, the SQL cursor, the
  chatlog insert+commit) are fields of an `Env` record of functions;
  a raised exception is an `Except.error`.
- The global mutable state (the `chat_history` deque and the chatlogs
  table) is a `State` record threaded explicitly; Python globals survive
  an uncaught exception, so `chat_endpoint` returns the new state
  together with `Except String ChatResponse`.
-/

namespace BusApi

/-- Characters removed by Python `str.strip()` with no argument
(ASCII whitespace as it occurs in model output). -/
def pyWhitespace : List Char := [' ', '\t', '\n', '\r', '\x0b', '\x0c']

/-- Core of Python `str.strip(chars)` on the character list of a string:
drop characters belonging to `cs` from both ends. -/
def stripList (cs : List Char) (l : List Char) : List Char :=
  ((l.dropWhile (fun c => decide (c ∈ cs))).reverse.dropWhile
    (fun c => decide (c ∈ cs))).reverse

/-- Python `s.strip(chars)`: `chars` is a set of characters, removed from
both ends of `s`. -/
def pyStrip (cs : List Char) (s : String) : String := ⟨stripList cs s.data⟩

/-- Python `s.strip()` with no argument: strip surrounding whitespace. -/
def pyTrim (s : String) : String := pyStrip pyWhitespace s

/-- One conversation turn `(user_input, bot_response)` as stored in the
`chat_history` deque. -/
abbrev Turn := String × String

/-- Appending to a Python `deque(maxlen=n)`: add on the right and drop
from the left whatever exceeds the capacity. -/
def dequeAppend (maxlen : Nat) (h : List Turn) (x : Turn) : List Turn :=
  let h2 := h ++ [x]
  if maxlen < h2.length then h2.drop (h2.length - maxlen) else h2

/-- Template of one rendered turn inside `get_chat_context`. -/
def renderTurn (p : Turn) : String := "User: " ++ p.1 ++ "\nBot: " ++ p.2

/-- Source `get_chat_context`: newline-join of the rendered turns of the
history, oldest first. -/
def get_chat_context (hist : List Turn) : String :=
  String.intercalate "\n" (hist.map renderTurn)

/-- The fixed schema/style prompt `SCHEMA_PROMPT` of the source, verbatim
(ASCII apostrophes written as \x27 escapes). -/
def SCHEMA_PROMPT : String :=
  "\nYou are a SQL assistant for a Punjab transport database.\nRules:\n- Only use these tables and columns:\n  users(user_id, name, age, mobile_no, email, region_of_commute, created_at)\n  busstops(stop_id, stop_name, location, region)\n  routes(route_id, route_name, start_stop_id, end_stop_id, distance_km)\n  buses(bus_id, bus_number, capacity, current_location, route_id, status)\n  drivers(driver_id, name, mobile_no, bus_id, location, shift_start, shift_end)\n  tickets(ticket_id, user_id, bus_id, route_id, source_stop_id, destination_stop_id, fare, purchase_time)\n  notifications(notification_id, user_id, type, message, sent_at)\n  chatlogs(chat_id, user_id, message_text, response_text, created_at)\n  routestops(id, route_id, stop_id, stop_order)\n\n- Do NOT use columns that don\u2019t exist.\n- Always use LIKE instead of = when filtering stop_name or location.\n- For bus availability queries, return bus_number, route_name, current_location, and status.\n- If data is not found, return an empty result (do not invent).\n- Always include LIMIT 3 to avoid large results.\n\nExamples:\n\nUser: Next bus from ISBT Chandigarh to Ludhiana?\nSQL:\nSELECT b.bus_number, r.route_name, b.current_location, b.status\nFROM routes r\nJOIN buses b ON r.route_id = b.route_id\nJOIN routestops rs1 ON r.route_id = rs1.route_id\nJOIN busstops bs1 ON rs1.stop_id = bs1.stop_id\nJOIN routestops rs2 ON r.route_id = rs2.route_id\nJOIN busstops bs2 ON rs2.stop_id = bs2.stop_id\nWHERE bs1.stop_name LIKE \x27%Chandigarh%\x27\n  AND bs2.stop_name LIKE \x27%Ludhiana%\x27\n  AND b.status = \x27Running\x27\nLIMIT 3;\n\nUser: Show all buses from Chandigarh\nSQL:\nSELECT b.bus_number, r.route_name, b.current_location, b.status\nFROM buses b\nJOIN routes r ON b.route_id = r.route_id\nJOIN routestops rs ON r.route_id = rs.route_id\nJOIN busstops bs ON rs.stop_id = bs.stop_id\nWHERE bs.stop_name LIKE \x27%Chandigarh%\x27\nLIMIT 3;\n"

/-- The prompt built inside `generate_sql`:
`f"{SCHEMA_PROMPT}\nConversation so far:\n{context}\n\nUser: {user_input}\nSQL:"`. -/
def sqlGenPrompt (context user_input : String) : String :=
  SCHEMA_PROMPT ++ "\nConversation so far:\n" ++ context ++ "\n\nUser: "
    ++ user_input ++ "\nSQL:"

/-- Character set of the Python argument string in `.strip("```sql")`:
the backtick and the letters s, q, l. -/
def fenceChars : List Char := ['`', 's', 'q', 'l']

/-- Post-processing of the raw model text in `generate_sql`:
`response.text.strip().strip("```sql").strip("```")`. -/
def extractSql (raw : String) : String :=
  pyStrip ['`'] (pyStrip fenceChars (pyTrim raw))

/-- A result row as produced by the dictionary cursor: an ordered
association of column name to (stringified) value. -/
abbrev Row := List (String × String)

/-- The `results` value of the handler: either the fetched rows or the
`{"error": str(e)}` dictionary built in the except branch. -/
inductive QueryResult where
  | rows (rs : List Row)
  | error (msg : String)
deriving DecidableEq, Repr

/-- Python `str()` of a string as it appears inside `str()` of a list or
dict: quoted with single quotes (the strings in play contain no quotes
or backslashes, so no escaping arises). -/
def pyReprStr (s : String) : String := "\x27" ++ s ++ "\x27"

/-- Python rendering of one key/value entry of a row dictionary. -/
def pyReprPair (p : String × String) : String :=
  pyReprStr p.1 ++ ": " ++ pyReprStr p.2

/-- Python `str()` of one row dictionary. -/
def pyReprRow (r : Row) : String :=
  "\x7b" ++ String.intercalate ", " (r.map pyReprPair) ++ "\x7d"

/-- Python `str()` of the `results` value as interpolated into the
formatting f-string: a list of dicts, or the error dict. -/
def pyReprResults : QueryResult → String
  | QueryResult.rows rs => "[" ++ String.intercalate ", " (rs.map pyReprRow) ++ "]"
  | QueryResult.error e => "\x7b\x27error\x27: " ++ pyReprStr e ++ "\x7d"

/-- The prompt built inside `format_response`. -/
def formatPrompt (context user_input : String) (raw_results : QueryResult) : String :=
  "Conversation so far:\n" ++ context ++ "\n\nUser just asked: " ++ user_input
    ++ "\nHere are SQL query results:\n" ++ pyReprResults raw_results
    ++ "\nFormat this as a clear SMS/WhatsApp style reply:"

/-- A persisted chatlogs row as inserted by the handler. -/
structure ChatLogRecord where
  user_id : Int
  message_text : String
  response_text : String
  created_at : Nat
deriving DecidableEq, Repr

/-- The external collaborators of the process: the generative model
(`model.generate_content`), the SQL cursor (`cursor.execute` +
`fetchall` on the generated query), the chatlog insert+commit, and the
clock (`datetime.datetime.now()`). A raised exception is an
`Except.error` carrying `str(e)`. -/
structure Env where
  llm : String → Except String String
  runQuery : String → Except String (List Row)
  insertLog : ChatLogRecord → Except String Unit
  now : Nat

/-- The process-wide mutable state: the `chat_history` deque and the
contents of the chatlogs table. -/
structure State where
  chat_history : List Turn
  chatlogs : List ChatLogRecord
deriving DecidableEq, Repr

/-- State at process start: empty history, empty log. -/
def initState : State := { chat_history := [], chatlogs := [] }

/-- The request body model `ChatRequest(user_id: int = 1, message: str)`. -/
structure ChatRequest where
  user_id : Int := 1
  message : String
deriving DecidableEq, Repr

/-- A request body in which the `user_id` field is absent, so the pydantic
default applies. -/
def chatRequestOfMessage (m : String) : ChatRequest := { message := m }

/-- The JSON object returned by `/chat`: exactly the four fields of the
final dict literal of `chat_endpoint`. -/
structure ChatResponse where
  user_message : String
  sql_query : String
  results : QueryResult
  bot_response : String
deriving DecidableEq, Repr

/-- Source `generate_sql`: build the prompt from the current context,
call the model, post-process the text. A model failure propagates. -/
def generate_sql (env : Env) (hist : List Turn) (user_input : String) :
    Except String String :=
  match env.llm (sqlGenPrompt (get_chat_context hist) user_input) with
  | Except.error e => Except.error e
  | Except.ok raw => Except.ok (extractSql raw)

/-- Source `format_response`: build the second prompt, call the model,
return the trimmed text. A model failure propagates. -/
def format_response (env : Env) (hist : List Turn) (raw_results : QueryResult)
    (user_input : String) : Except String String :=
  match env.llm (formatPrompt (get_chat_context hist) user_input raw_results) with
  | Except.error e => Except.error e
  | Except.ok raw => Except.ok (pyTrim raw)

/-- The try/except around `cursor.execute(sql_query); cursor.fetchall()`:
a success yields the rows, any exception yields the error dict. -/
def queryResultOf : Except String (List Row) → QueryResult
  | Except.ok rs => QueryResult.rows rs
  | Except.error e => QueryResult.error e

/-- Source `chat_endpoint`: generate SQL, execute it under try/except,
format the result, append the turn to the deque, insert the chatlog row
and commit, and return the four-field dict. The returned `State` is the
value of the globals afterwards, also when an exception propagates. -/
def chat_endpoint (env : Env) (st : State) (req : ChatRequest) :
    State × Except String ChatResponse :=
  match generate_sql env st.chat_history req.message with
  | Except.error e => (st, Except.error e)
  | Except.ok sql_query =>
    match format_response env st.chat_history (queryResultOf (env.runQuery sql_query))
        req.message with
    | Except.error e => (st, Except.error e)
    | Except.ok response_text =>
      match env.insertLog { user_id := req.user_id, message_text := req.message,
                            response_text := response_text, created_at := env.now } with
      | Except.error e =>
        ({ st with chat_history := dequeAppend 5 st.chat_history (req.message, response_text) },
         Except.error e)
      | Except.ok _ =>
        ({ chat_history := dequeAppend 5 st.chat_history (req.message, response_text),
           chatlogs := st.chatlogs ++
             [{ user_id := req.user_id, message_text := req.message,
                response_text := response_text, created_at := env.now }] },
         Except.ok { user_message := req.message, sql_query := sql_query,
                     results := queryResultOf (env.runQuery sql_query),
                     bot_response := response_text })

/-- The response body of `GET /`. -/
structure RootResponse where
  message : String
deriving DecidableEq, Repr

/-- Source `root`: the constant liveness payload. -/
def root : RootResponse := { message := "Punjab Bus Assistant API is running 🚍" }

/-- An incoming HTTP request to one of the two routes of the app. -/
inductive Request where
  | getRoot : Request
  | postChat : ChatRequest → Request

/-- A response as seen by the HTTP client: a route payload, or the
transport-level failure produced by an uncaught exception. -/
inductive ApiResponse where
  | rootPayload : RootResponse → ApiResponse
  | chatPayload : ChatResponse → ApiResponse
  | failure : String → ApiResponse
deriving DecidableEq, Repr

/-- Dispatch of one request by the app. -/
def handle (env : Env) (st : State) : Request → State × ApiResponse
  | Request.getRoot => (st, ApiResponse.rootPayload root)
  | Request.postChat req =>
    match chat_endpoint env st req with
    | (st2, Except.ok resp) => (st2, ApiResponse.chatPayload resp)
    | (st2, Except.error e) => (st2, ApiResponse.failure e)

/-- State of the process after serving a sequence of requests. -/
def runTrace (env : Env) : State → List Request → State
  | st, [] => st
  | st, r :: rs => runTrace env (handle env st r).1 rs

/-- State of the process after serving a sequence of `/chat` requests. -/
def runChats (env : Env) (st : State) (reqs : List ChatRequest) : State :=
  reqs.foldl (fun s r => (chat_endpoint env s r).1) st

/-- Modelled from the spec: the HTTP status FastAPI attaches to the
outcome of `chat_endpoint` (the framework itself is outside src/) —
200 on a returned value, a 5xx transport failure on an uncaught
exception. -/
def httpStatus : Except String ChatResponse → Nat
  | Except.ok _ => 200
  | Except.error _ => 500

/-- Boolean guard: neither end of the character list lies in the strip
set, so a Python strip with that set leaves the string unchanged. -/
def stripInert (cs : List Char) (l : List Char) : Bool :=
  (match l.head? with
   | none => true
   | some c => decide (c ∉ cs)) &&
  (match l.getLast? with
   | none => true
   | some c => decide (c ∉ cs))

/-- Witness fixture: a model that always answers the same text. -/
def llmOkW : String → Except String String := fun _ => Except.ok "SELECT 1"

/-- Witness fixture: all collaborators succeed. -/
def envOkW : Env :=
  { llm := llmOkW, runQuery := fun _ => Except.ok [],
    insertLog := fun _ => Except.ok (), now := 0 }

/-- Witness fixture: the cursor raises on every query. -/
def envQueryFailW : Env :=
  { envOkW with runQuery := fun _ => Except.error "Unknown column" }

/-- Witness fixture: the chatlog insert/commit raises. -/
def envInsertFailW : Env :=
  { envOkW with insertLog := fun _ => Except.error "commit failed" }

/-- Witness fixture: a plain request. -/
def reqW : ChatRequest := { user_id := 1, message := "hi" }

/-- Witness fixture: the state after one successful request under
`envOkW` from `initState`. -/
def stAfterW : State :=
  { chat_history := [("hi", "SELECT 1")],
    chatlogs := [{ user_id := 1, message_text := "hi", response_text := "SELECT 1",
                   created_at := 0 }] }

/-- Witness fixture: the response of one successful request under
`envOkW` from `initState`. -/
def respW : ChatResponse :=
  { user_message := "hi", sql_query := "SELECT 1", results := QueryResult.rows [],
    bot_response := "SELECT 1" }

/-- Right-fold spine of `String.intercalate`: the tail rendered with the
separator before every element. -/
def preJoin (s : String) : List String → String
  | [] => ""
  | a :: as => s ++ a ++ preJoin s as

/- ------------------------------------------------------------------ -/
/- Theorems.                                                           -/
/- ------------------------------------------------------------------ -/

theorem dropWhile_eq_self_of_head (p : Char → Bool) (l : List Char)
    (h : ∀ c, l.head? = some c → p c = false) : l.dropWhile p = l := by
  cases l with
  | nil => rfl
  | cons a t => simp [List.dropWhile_cons, h a rfl]

theorem stripList_eq_self (cs l)
    (h1 : ∀ c, l.head? = some c → decide (c ∈ cs) = false)
    (h2 : ∀ c, l.getLast? = some c → decide (c ∈ cs) = false) :
    stripList cs l = l := by
  unfold stripList
  rw [dropWhile_eq_self_of_head _ _ h1, dropWhile_eq_self_of_head, List.reverse_reverse]
  intro c hc
  rw [List.head?_reverse] at hc
  exact h2 c hc

theorem of_stripInert (cs l) (h : stripInert cs l = true) :
    (∀ c, l.head? = some c → decide (c ∈ cs) = false) ∧
    (∀ c, l.getLast? = some c → decide (c ∈ cs) = false) := by
  unfold stripInert at h
  rw [Bool.and_eq_true] at h
  constructor
  · intro c hc; rw [hc] at h; simpa using h.1
  · intro c hc; rw [hc] at h; simpa using h.2

theorem stripList_inert (cs l) (h : stripInert cs l = true) : stripList cs l = l :=
  stripList_eq_self cs l (of_stripInert cs l h).1 (of_stripInert cs l h).2

theorem stripInert_subset (cs1 cs2 : List Char) (l : List Char)
    (hsub : ∀ c, c ∈ cs1 → c ∈ cs2) (h : stripInert cs2 l = true) :
    stripInert cs1 l = true := by
  have h2 := of_stripInert cs2 l h
  unfold stripInert
  rw [Bool.and_eq_true]
  constructor
  · rcases hh : l.head? with _ | c
    · rfl
    · have := h2.1 c hh
      simp at this ⊢
      intro hc
      exact this (hsub c hc)
  · rcases hh : l.getLast? with _ | c
    · rfl
    · have := h2.2 c hh
      simp at this ⊢
      intro hc
      exact this (hsub c hc)

theorem extractSql_unwrapped (t : String)
    (h : stripInert fenceChars (pyTrim t).data = true) :
    extractSql t = pyTrim t := by
  have e1 : pyStrip fenceChars (pyTrim t) = pyTrim t := by
    show (⟨stripList fenceChars (pyTrim t).data⟩ : String) = pyTrim t
    rw [stripList_inert _ _ h]
  have hbt : stripInert ['`'] (pyTrim t).data = true := by
    apply stripInert_subset _ fenceChars _ _ h
    intro c hc
    simp at hc
    subst hc
    decide
  have e2 : pyStrip ['`'] (pyTrim t) = pyTrim t := by
    show (⟨stripList ['`'] (pyTrim t).data⟩ : String) = pyTrim t
    rw [stripList_inert _ _ hbt]
  unfold extractSql
  rw [e1, e2]

theorem extractSql_fenced (inner : String) :
    extractSql ("```sql\n" ++ inner ++ "\n```") = "\n" ++ inner ++ "\n" := by
  have hlast : ("```sql\n" ++ inner ++ "\n```").data.getLast? = some '`' := by
    show ('`' :: '`' :: '`' :: 's' :: 'q' :: 'l' :: '\n' :: (inner.data ++ ['\n','`','`','`'])).getLast? = some '`'
    rw [show ('`' :: '`' :: '`' :: 's' :: 'q' :: 'l' :: '\n' :: (inner.data ++ ['\n','`','`','`']))
        = ('`' :: '`' :: '`' :: 's' :: 'q' :: 'l' :: '\n' :: (inner.data ++ ['\n','`','`'])) ++ ['`'] by simp]
    exact List.getLast?_concat _
  have htrim : pyTrim ("```sql\n" ++ inner ++ "\n```") = "```sql\n" ++ inner ++ "\n```" := by
    show (⟨stripList pyWhitespace ("```sql\n" ++ inner ++ "\n```").data⟩ : String) = _
    rw [stripList_eq_self]
    · intro c hc
      have hh : ("```sql\n" ++ inner ++ "\n```").data.head? = some '`' := rfl
      rw [hh] at hc
      injection hc with hc
      subst hc
      decide
    · intro c hc
      rw [hlast] at hc
      injection hc with hc
      subst hc
      decide
  have hdw : List.dropWhile (fun c => decide (c ∈ fenceChars))
      ("```sql\n" ++ inner ++ "\n```").data
      = '\n' :: (inner.data ++ ['\n','`','`','`']) := rfl
  have hrev : ('\n' :: (inner.data ++ ['\n','`','`','`'])).reverse
      = '`' :: '`' :: '`' :: '\n' :: (inner.data.reverse ++ ['\n']) := by
    simp
  have hdw2 : List.dropWhile (fun c => decide (c ∈ fenceChars))
      ('`' :: '`' :: '`' :: '\n' :: (inner.data.reverse ++ ['\n']))
      = '\n' :: (inner.data.reverse ++ ['\n']) := rfl
  have hfence : stripList fenceChars ("```sql\n" ++ inner ++ "\n```").data
      = '\n' :: (inner.data ++ ['\n']) := by
    unfold stripList
    rw [hdw, hrev, hdw2]
    simp
  have hbt : stripList ['`'] ('\n' :: (inner.data ++ ['\n'])) = '\n' :: (inner.data ++ ['\n']) := by
    apply stripList_eq_self
    · intro c hc
      rw [List.head?_cons] at hc
      injection hc with hc
      subst hc
      decide
    · intro c hc
      rw [show ('\n' :: (inner.data ++ ['\n'])) = ('\n' :: inner.data) ++ ['\n'] by simp,
        List.getLast?_concat] at hc
      injection hc with hc
      subst hc
      decide
  show pyStrip ['`'] (pyStrip fenceChars (pyTrim ("```sql\n" ++ inner ++ "\n```"))) = _
  rw [htrim]
  show (⟨stripList ['`'] (stripList fenceChars ("```sql\n" ++ inner ++ "\n```").data)⟩ : String) = _
  rw [hfence, hbt]
  show (⟨'\n' :: (inner.data ++ ['\n'])⟩ : String) = "\n" ++ inner ++ "\n"
  rfl

/-- C1: the claim as stated is false on the code. Python `str.strip(chars)`
removes a character SET, so on the unwrapped response
"SELECT * FROM buses" the trailing letter s is eaten, and on a fenced
response the inner text keeps its surrounding newlines instead of being
trimmed. -/
theorem C1_strip_counterexample :
    extractSql "SELECT * FROM buses" = "SELECT * FROM buse" ∧
    extractSql "SELECT * FROM buses" ≠ "SELECT * FROM buses" ∧
    extractSql "```sql\nSELECT 1;\n```" = "\nSELECT 1;\n" ∧
    extractSql "```sql\nSELECT 1;\n```" ≠ "SELECT 1;" := by
  refine ⟨by decide, by decide, by decide, by decide⟩

/-- C1 (amended): `generate_sql` applies `extractSql` to the raw model
text; a response fenced as "```sql\n...\n```" loses exactly the fence
markers, keeping the newlines adjacent to them; an unwrapped response
whose trimmed form neither starts nor ends with one of the characters
backtick, s, q, l comes back merely whitespace-trimmed. -/
theorem C1_extraction_amended (env : Env) (hist : List Turn) (u raw inner t : String)
    (hllm : env.llm (sqlGenPrompt (get_chat_context hist) u) = Except.ok raw)
    (hinert : stripInert fenceChars (pyTrim t).data = true) :
    generate_sql env hist u = Except.ok (extractSql raw) ∧
    extractSql ("```sql\n" ++ inner ++ "\n```") = "\n" ++ inner ++ "\n" ∧
    extractSql t = pyTrim t := by
  refine ⟨?_, extractSql_fenced inner, extractSql_unwrapped t hinert⟩
  unfold generate_sql
  rw [hllm]

/-- C1 (amended), instantiated: the model answers "SELECT 1", the fenced
body is "SELECT 1;", and the unwrapped text is " SELECT * FROM buses; ". -/
theorem C1_extraction_amended_witness :
    generate_sql envOkW [] "hi" = Except.ok (extractSql "SELECT 1") ∧
    extractSql ("```sql\n" ++ "SELECT 1;" ++ "\n```") = "\n" ++ "SELECT 1;" ++ "\n" ∧
    extractSql " SELECT * FROM buses; " = pyTrim " SELECT * FROM buses; " :=
  C1_extraction_amended envOkW [] "hi" "SELECT 1" "SELECT 1;" " SELECT * FROM buses; "
    rfl (by decide)

theorem dequeAppend_eq (h : List Turn) (x : Turn) :
    dequeAppend 5 h x = (h ++ [x]).drop (h.length + 1 - 5) := by
  unfold dequeAppend
  simp only [List.length_append, List.length_singleton]
  split
  · rfl
  · rw [show h.length + 1 - 5 = 0 by omega, List.drop_zero]

theorem dequeAppend_length_le (h : List Turn) (x : Turn) :
    (dequeAppend 5 h x).length ≤ 5 := by
  rw [dequeAppend_eq, List.length_drop]
  simp only [List.length_append, List.length_singleton]
  omega

theorem dequeAppend_concat (h : List Turn) (x : Turn) :
    dequeAppend 5 h x = h.drop (h.length + 1 - 5) ++ [x] := by
  rw [dequeAppend_eq, List.drop_append_of_le_length (by omega)]

theorem foldl_dequeAppend (ts : List Turn) :
    ∀ acc : List Turn, acc.length ≤ 5 →
      List.foldl (dequeAppend 5) acc ts = (acc ++ ts).drop ((acc ++ ts).length - 5) := by
  induction ts with
  | nil =>
    intro acc hacc
    simp only [List.foldl_nil, List.append_nil]
    rw [show acc.length - 5 = 0 by omega, List.drop_zero]
  | cons t ts ih =>
    intro acc hacc
    rw [List.foldl_cons, ih (dequeAppend 5 acc t) (dequeAppend_length_le acc t),
      dequeAppend_eq]
    rw [← List.drop_append_of_le_length (by simp; omega), List.drop_drop]
    rw [show (acc ++ [t]) ++ ts = acc ++ t :: ts by simp]
    congr 1
    simp only [List.length_append, List.length_drop, List.length_singleton,
      List.length_cons]
    omega

/-- C3: a history built by appending at most 5 turns renders as the turns
in arrival order under the fixed "User:"/"Bot:" template, newline-joined;
with more than 5 turns only the most recent 5 remain, the oldest dropped
first. -/
theorem C3_render_window (ts : List Turn) :
    (ts.length ≤ 5 →
      get_chat_context (ts.foldl (dequeAppend 5) []) =
        String.intercalate "\n" (ts.map renderTurn)) ∧
    (5 < ts.length →
      ts.foldl (dequeAppend 5) [] = ts.drop (ts.length - 5) ∧
      get_chat_context (ts.foldl (dequeAppend 5) []) =
        String.intercalate "\n" ((ts.drop (ts.length - 5)).map renderTurn)) := by
  have hfold : ts.foldl (dequeAppend 5) [] = ts.drop (ts.length - 5) := by
    rw [foldl_dequeAppend ts [] (by simp)]
    simp
  constructor
  · intro hle
    rw [get_chat_context, hfold, show ts.length - 5 = 0 by omega, List.drop_zero]
  · intro _
    exact ⟨hfold, by rw [get_chat_context, hfold]⟩

/-- C3, instantiated at a 3-turn and a 7-turn history. -/
theorem C3_render_window_witness :
    get_chat_context ([(("a","b") : Turn), ("c","d"), ("e","f")].foldl (dequeAppend 5) []) =
      String.intercalate "\n" ([(("a","b") : Turn), ("c","d"), ("e","f")].map renderTurn) ∧
    get_chat_context ([(("a","b") : Turn), ("c","d"), ("e","f"), ("g","h"), ("i","j"),
        ("k","l"), ("m","n")].foldl (dequeAppend 5) []) =
      String.intercalate "\n" (([(("a","b") : Turn), ("c","d"), ("e","f"), ("g","h"), ("i","j"),
        ("k","l"), ("m","n")].drop
          ([(("a","b") : Turn), ("c","d"), ("e","f"), ("g","h"), ("i","j"),
            ("k","l"), ("m","n")].length - 5)).map renderTurn) :=
  ⟨(C3_render_window [("a","b"), ("c","d"), ("e","f")]).1 (by decide),
   ((C3_render_window [("a","b"), ("c","d"), ("e","f"), ("g","h"), ("i","j"),
      ("k","l"), ("m","n")]).2 (by decide)).2⟩

theorem chat_endpoint_hist_cases (env : Env) (st : State) (req : ChatRequest) :
    ((chat_endpoint env st req).1).chat_history = st.chat_history ∨
    ∃ b, ((chat_endpoint env st req).1).chat_history
        = dequeAppend 5 st.chat_history (req.message, b) := by
  unfold chat_endpoint
  split
  · exact Or.inl rfl
  · split
    · exact Or.inl rfl
    · split
      · exact Or.inr ⟨_, rfl⟩
      · exact Or.inr ⟨_, rfl⟩

theorem chat_endpoint_hist_le (env : Env) (st : State) (req : ChatRequest)
    (h : st.chat_history.length ≤ 5) :
    ((chat_endpoint env st req).1).chat_history.length ≤ 5 := by
  rcases chat_endpoint_hist_cases env st req with hc | ⟨b, hc⟩
  · rw [hc]; exact h
  · rw [hc]; exact dequeAppend_length_le _ _

theorem runChats_hist_le (env : Env) (reqs : List ChatRequest) :
    ∀ st : State, st.chat_history.length ≤ 5 →
      (runChats env st reqs).chat_history.length ≤ 5 := by
  induction reqs with
  | nil => intro st h; exact h
  | cons r rs ih =>
    intro st h
    show (runChats env ((chat_endpoint env st r).1) rs).chat_history.length ≤ 5
    exact ih _ (chat_endpoint_hist_le env st r h)

/-- C4: after any sequence of `/chat` invocations from process start, the
stored history never holds more than 5 turns. -/
theorem C4_window_bound (env : Env) (reqs : List ChatRequest) :
    (runChats env initState reqs).chat_history.length ≤ 5 :=
  runChats_hist_le env reqs initState (by simp [initState])

theorem intercalate_go_eq (s : String) (as : List String) :
    ∀ acc, String.intercalate.go acc s as = acc ++ preJoin s as := by
  induction as with
  | nil =>
    intro acc
    show acc = acc ++ ""
    rw [String.append_empty]
  | cons a as ih =>
    intro acc
    show String.intercalate.go (acc ++ s ++ a) s as = _
    rw [ih]
    show acc ++ s ++ a ++ preJoin s as = acc ++ (s ++ a ++ preJoin s as)
    simp [String.append_assoc]

theorem intercalate_cons (s a : String) (as : List String) :
    String.intercalate s (a :: as) = a ++ preJoin s as :=
  intercalate_go_eq s as a

theorem data_infix_of_middle (a m b : String) : m.data <:+: (a ++ m ++ b).data := by
  rw [String.data_append, String.data_append]
  exact List.infix_append _ _ _

theorem data_infix_of_right (a m : String) : m.data <:+: (a ++ m).data := by
  rw [String.data_append]
  simpa using List.infix_append a.data m.data []

theorem infix_preJoin_last (s y : String) (xs : List String) :
    y.data <:+: (preJoin s (xs ++ [y])).data := by
  induction xs with
  | nil =>
    show y.data <:+: (s ++ y ++ preJoin s []).data
    show y.data <:+: (s ++ y ++ "").data
    rw [String.append_empty]
    exact data_infix_of_right s y
  | cons x xs ih =>
    show y.data <:+: (s ++ x ++ preJoin s (xs ++ [y])).data
    exact ih.trans (data_infix_of_right (s ++ x) (preJoin s (xs ++ [y])))

theorem infix_intercalate_last (s y : String) (xs : List String) :
    y.data <:+: (String.intercalate s (xs ++ [y])).data := by
  cases xs with
  | nil =>
    rw [show ([] ++ [y] : List String) = [y] by simp, intercalate_cons]
    show y.data <:+: (y ++ "").data
    rw [String.append_empty]
  | cons x xs =>
    rw [show ((x :: xs) ++ [y] : List String) = x :: (xs ++ [y]) by simp, intercalate_cons]
    exact (infix_preJoin_last s y xs).trans (data_infix_of_right x _)

theorem user_infix_renderTurn (u b : String) : u.data <:+: (renderTurn (u, b)).data := by
  show u.data <:+: ("User: " ++ u ++ "\nBot: " ++ b).data
  rw [String.append_assoc ("User: " ++ u) "\nBot: " b]
  exact data_infix_of_middle "User: " u ("\nBot: " ++ b)

theorem bot_infix_renderTurn (u b : String) : b.data <:+: (renderTurn (u, b)).data :=
  data_infix_of_right ("User: " ++ u ++ "\nBot: ") b

theorem context_infix_sqlGenPrompt (ctx m2 : String) :
    ctx.data <:+: (sqlGenPrompt ctx m2).data := by
  show ctx.data <:+: (SCHEMA_PROMPT ++ "\nConversation so far:\n" ++ ctx ++ "\n\nUser: "
    ++ m2 ++ "\nSQL:").data
  rw [show SCHEMA_PROMPT ++ "\nConversation so far:\n" ++ ctx ++ "\n\nUser: " ++ m2 ++ "\nSQL:"
      = (SCHEMA_PROMPT ++ "\nConversation so far:\n") ++ ctx
          ++ ("\n\nUser: " ++ m2 ++ "\nSQL:") by
    simp [String.append_assoc]]
  exact data_infix_of_middle _ ctx _

theorem last_turn_infix_prompt (l' : List Turn) (u b m2 : String) :
    u.data <:+: (sqlGenPrompt (get_chat_context (l' ++ [(u, b)])) m2).data ∧
    b.data <:+: (sqlGenPrompt (get_chat_context (l' ++ [(u, b)])) m2).data := by
  have hctx : (renderTurn (u, b)).data
      <:+: (get_chat_context (l' ++ [(u, b)])).data := by
    rw [get_chat_context, List.map_append, List.map_cons, List.map_nil]
    exact infix_intercalate_last "\n" (renderTurn (u, b)) (l'.map renderTurn)
  have hprompt := context_infix_sqlGenPrompt (get_chat_context (l' ++ [(u, b)])) m2
  exact ⟨((user_infix_renderTurn u b).trans hctx).trans hprompt,
         ((bot_infix_renderTurn u b).trans hctx).trans hprompt⟩

theorem chat_endpoint_ok_state (env : Env) (st : State) (req : ChatRequest)
    (st2 : State) (resp : ChatResponse)
    (h : chat_endpoint env st req = (st2, Except.ok resp)) :
    st2.chat_history = dequeAppend 5 st.chat_history (req.message, resp.bot_response) := by
  unfold chat_endpoint at h
  split at h
  · simp at h
  · split at h
    · simp at h
    · split at h
      · simp at h
      · rw [Prod.mk.injEq] at h
        obtain ⟨h1, h2⟩ := h
        injection h2 with h2
        rw [← h1, ← h2]

/-- C6: after a completed `/chat` request, the SQL-generation prompt of any
subsequent request contains the user message and the bot reply of that
completed request verbatim, because the appended turn sits in the rendered
transcript, which is embedded in the prompt. -/
theorem C6_context_persistence (env : Env) (st : State) (req1 : ChatRequest)
    (st1 : State) (resp1 : ChatResponse) (m2 : String)
    (h1 : chat_endpoint env st req1 = (st1, Except.ok resp1)) :
    req1.message.data <:+: (sqlGenPrompt (get_chat_context st1.chat_history) m2).data ∧
    resp1.bot_response.data <:+: (sqlGenPrompt (get_chat_context st1.chat_history) m2).data := by
  have hh := chat_endpoint_ok_state env st req1 st1 resp1 h1
  rw [hh, dequeAppend_concat]
  exact last_turn_infix_prompt _ req1.message resp1.bot_response m2

/-- C6, instantiated: after one successful request ("hi" answered with
"SELECT 1"), both strings appear verbatim in the next generation prompt. -/
theorem C6_context_persistence_witness :
    reqW.message.data <:+: (sqlGenPrompt (get_chat_context stAfterW.chat_history) "next?").data ∧
    respW.bot_response.data <:+: (sqlGenPrompt (get_chat_context stAfterW.chat_history) "next?").data :=
  C6_context_persistence envOkW initState reqW stAfterW respW "next?" rfl

/-- C2: when executing the generated SQL raises, the handler converts the
exception into the error descriptor, the formatting step still runs on
that descriptor, and the request completes normally with it embedded in
the response. -/
theorem C2_query_error_captured (env : Env) (st : State) (req : ChatRequest)
    (sql e fmtOut : String)
    (hgen : generate_sql env st.chat_history req.message = Except.ok sql)
    (hexec : env.runQuery sql = Except.error e)
    (hfmt : env.llm (formatPrompt (get_chat_context st.chat_history) req.message
        (QueryResult.error e)) = Except.ok fmtOut)
    (hins : env.insertLog
        (ChatLogRecord.mk req.user_id req.message (pyTrim fmtOut) env.now) = Except.ok ()) :
    (chat_endpoint env st req).2 =
      Except.ok (ChatResponse.mk req.message sql (QueryResult.error e) (pyTrim fmtOut)) := by
  unfold chat_endpoint
  simp only [hgen, hexec, queryResultOf]
  unfold format_response
  simp only [hfmt, hins]

/-- C2, instantiated: the cursor raises "Unknown column"; the reply is
still produced and the error descriptor is returned in `results`. -/
theorem C2_query_error_captured_witness :
    (chat_endpoint envQueryFailW initState reqW).2 =
      Except.ok (ChatResponse.mk reqW.message "SELECT 1"
        (QueryResult.error "Unknown column") (pyTrim "SELECT 1")) :=
  C2_query_error_captured envQueryFailW initState reqW "SELECT 1" "Unknown column"
    "SELECT 1" rfl rfl rfl rfl

/-- C5: a `/chat` run that completes returns the four-field object (its
type `ChatResponse` has exactly the fields user_message, sql_query,
results, bot_response) with HTTP status 200 and user_message echoing the
request; a body without user_id gets the default 1. -/
theorem C5_response_shape (env : Env) (st : State) (req : ChatRequest)
    (st2 : State) (resp : ChatResponse)
    (h : chat_endpoint env st req = (st2, Except.ok resp)) :
    httpStatus (Except.ok resp) = 200 ∧
    resp = ChatResponse.mk req.message resp.sql_query resp.results resp.bot_response ∧
    (∀ m : String, (chatRequestOfMessage m).user_id = 1) := by
  refine ⟨rfl, ?_, fun m => rfl⟩
  unfold chat_endpoint at h
  split at h
  · simp at h
  · split at h
    · simp at h
    · split at h
      · simp at h
      · rw [Prod.mk.injEq] at h
        obtain ⟨h1, h2⟩ := h
        injection h2 with h2
        rw [← h2]

/-- C5, instantiated at a successful request. -/
theorem C5_response_shape_witness :
    httpStatus (Except.ok respW) = 200 ∧
    respW = ChatResponse.mk reqW.message respW.sql_query respW.results respW.bot_response ∧
    (∀ m : String, (chatRequestOfMessage m).user_id = 1) :=
  C5_response_shape envOkW initState reqW stAfterW respW rfl

/-- C7: a raising chatlog insert/commit is not caught: the handler
returns the error (the computed reply is lost to the caller), the log is
unchanged, and nothing else is rolled back (the appended turn stays). -/
theorem C7_logging_error_propagates (env : Env) (st : State) (req : ChatRequest)
    (sql rt e : String)
    (hgen : generate_sql env st.chat_history req.message = Except.ok sql)
    (hfmt : format_response env st.chat_history (queryResultOf (env.runQuery sql))
        req.message = Except.ok rt)
    (hins : env.insertLog
        (ChatLogRecord.mk req.user_id req.message rt env.now) = Except.error e) :
    chat_endpoint env st req =
      (State.mk (dequeAppend 5 st.chat_history (req.message, rt)) st.chatlogs,
       Except.error e) := by
  unfold chat_endpoint
  simp only [hgen, hfmt, hins]

/-- C7, instantiated: commit fails; the request errors out although the
reply "SELECT 1" had been computed. -/
theorem C7_logging_error_propagates_witness :
    chat_endpoint envInsertFailW initState reqW =
      (State.mk (dequeAppend 5 initState.chat_history (reqW.message, "SELECT 1"))
        initState.chatlogs, Except.error "commit failed") :=
  C7_logging_error_propagates envInsertFailW initState reqW "SELECT 1" "SELECT 1"
    "commit failed" rfl rfl rfl

/-- C9: when the chatlog insert raises, the context window has already
been mutated: the new turn is the last element of the stored history, no
log row was added, and the generation prompt of any
subsequent request contains the never-persisted turn verbatim. -/
theorem C9_window_mutated_before_insert (env : Env) (st : State) (req : ChatRequest)
    (sql rt e : String)
    (hgen : generate_sql env st.chat_history req.message = Except.ok sql)
    (hfmt : format_response env st.chat_history (queryResultOf (env.runQuery sql))
        req.message = Except.ok rt)
    (hins : env.insertLog
        (ChatLogRecord.mk req.user_id req.message rt env.now) = Except.error e) :
    ((chat_endpoint env st req).1).chat_history.getLast? = some (req.message, rt) ∧
    ((chat_endpoint env st req).1).chatlogs = st.chatlogs ∧
    ∀ m2 : String,
      req.message.data <:+:
        (sqlGenPrompt (get_chat_context ((chat_endpoint env st req).1).chat_history) m2).data ∧
      rt.data <:+:
        (sqlGenPrompt (get_chat_context ((chat_endpoint env st req).1).chat_history) m2).data := by
  unfold chat_endpoint
  simp only [hgen, hfmt, hins]
  refine ⟨?_, trivial, ?_⟩
  · rw [dequeAppend_concat]
    exact List.getLast?_concat _
  · intro m2
    rw [dequeAppend_concat]
    exact last_turn_infix_prompt _ req.message rt m2

/-- C9, instantiated: the insert fails, yet the turn ("hi", "SELECT 1")
is in the window, absent from the log, and inside the next prompt. -/
theorem C9_window_mutated_before_insert_witness :
    ((chat_endpoint envInsertFailW initState reqW).1).chat_history.getLast?
      = some (reqW.message, "SELECT 1") ∧
    ((chat_endpoint envInsertFailW initState reqW).1).chatlogs = initState.chatlogs ∧
    ∀ m2 : String,
      reqW.message.data <:+:
        (sqlGenPrompt (get_chat_context
          ((chat_endpoint envInsertFailW initState reqW).1).chat_history) m2).data ∧
      ("SELECT 1" : String).data <:+:
        (sqlGenPrompt (get_chat_context
          ((chat_endpoint envInsertFailW initState reqW).1).chat_history) m2).data :=
  C9_window_mutated_before_insert envInsertFailW initState reqW "SELECT 1" "SELECT 1"
    "commit failed" rfl rfl rfl

/-- C10: two requests differing only in user_id, run from the same state
against collaborators whose answers agree on both chatlog rows, produce
identical responses and identical context windows; the chatlogs differ
at most in the stored user_id. -/
theorem C10_user_id_noninterference (env : Env) (st : State) (m : String)
    (uid1 uid2 : Int)
    (hins : ∀ t : String,
      env.insertLog (ChatLogRecord.mk uid1 m t env.now)
        = env.insertLog (ChatLogRecord.mk uid2 m t env.now)) :
    ((chat_endpoint env st { user_id := uid1, message := m }).2
      = (chat_endpoint env st { user_id := uid2, message := m }).2) ∧
    ((chat_endpoint env st { user_id := uid1, message := m }).1.chat_history
      = (chat_endpoint env st { user_id := uid2, message := m }).1.chat_history) ∧
    ((chat_endpoint env st { user_id := uid1, message := m }).1.chatlogs.map
        (fun r => (r.message_text, r.response_text, r.created_at))
      = (chat_endpoint env st { user_id := uid2, message := m }).1.chatlogs.map
        (fun r => (r.message_text, r.response_text, r.created_at))) := by
  unfold chat_endpoint
  rcases hg : generate_sql env st.chat_history m with e | sql
  · simp only [hg]
    simp
  · simp only [hg]
    rcases hf : format_response env st.chat_history (queryResultOf (env.runQuery sql)) m
      with e | rt
    · simp only [hf]
      simp
    · simp only [hf]
      rcases hi : env.insertLog (ChatLogRecord.mk uid1 m rt env.now) with e | u
      · have hi2 : env.insertLog (ChatLogRecord.mk uid2 m rt env.now) = Except.error e :=
          (hins rt).symm.trans hi
        simp only [hi, hi2]
        simp
      · have hi2 : env.insertLog (ChatLogRecord.mk uid2 m rt env.now) = Except.ok u :=
          (hins rt).symm.trans hi
        simp only [hi, hi2]
        simp

/-- C10, instantiated at user ids 1 and 2 under succeeding collaborators. -/
theorem C10_user_id_noninterference_witness :
    ((chat_endpoint envOkW initState { user_id := 1, message := "hi" }).2
      = (chat_endpoint envOkW initState { user_id := 2, message := "hi" }).2) ∧
    ((chat_endpoint envOkW initState { user_id := 1, message := "hi" }).1.chat_history
      = (chat_endpoint envOkW initState { user_id := 2, message := "hi" }).1.chat_history) ∧
    ((chat_endpoint envOkW initState { user_id := 1, message := "hi" }).1.chatlogs.map
        (fun r => (r.message_text, r.response_text, r.created_at))
      = (chat_endpoint envOkW initState { user_id := 2, message := "hi" }).1.chatlogs.map
        (fun r => (r.message_text, r.response_text, r.created_at))) :=
  C10_user_id_noninterference envOkW initState "hi" 1 2 (fun _ => rfl)

/-- C8: `GET /` returns the same liveness payload after any trace of
prior requests, whatever they did to the shared state. -/
theorem C8_root_constant (env : Env) (reqs : List Request) :
    (handle env (runTrace env initState reqs) Request.getRoot).2
      = ApiResponse.rootPayload { message := "Punjab Bus Assistant API is running 🚍" } := rfl

end BusApi
